import Mathlib

/-!
Verification of the two iOS icon-preparation scripts of this repository:

  * `scripts/fix_icon_padding.py` (the Padder): pads and centers a source
    image on a square canvas with a margin and a background colour.
  * `scripts/generate_app_icons.py` (the IconGenerator): batch-resizes a
    source image into the static iOS icon-size table and writes the files
    into a category-partitioned directory tree.

Modelling conventions:

  * A decoded raster (`Img`) is its PIL mode string, its dimensions and a
    pixel function; channel values are exact rationals on the 0..255 scale.
  * Python float arithmetic is modelled as exact rational arithmetic.
    Python 3 `round` is round-half-to-even (`roundHalfEven` below); Python
    `//` on integers is floor division (`Int.fdiv`).
  * The LANCZOS resampling filter is modelled by coordinate sampling: the
    model fixes the output dimensions and mode exactly as PIL does, which
    is what the verified claims depend on; the filter weights themselves
    are not modelled.
  * File-system effects of the IconGenerator (directory creation and file
    writes) are reified as an explicit action list.
-/

/-- A pixel: red, green, blue, alpha channel values on the 0..255 scale. -/
structure RGBA where
  r : ℚ
  g : ℚ
  b : ℚ
  a : ℚ
deriving DecidableEq

/-- A decoded raster image: PIL mode string, dimensions, pixel function. -/
structure Img where
  mode : String
  width : ℕ
  height : ℕ
  px : ℕ → ℕ → RGBA

instance : Inhabited Img := ⟨⟨"RGBA", 0, 0, fun _ _ => ⟨0, 0, 0, 0⟩⟩⟩

/-- `img.convert('RGBA')`: identity on an RGBA image, otherwise re-tags the
mode and makes every pixel fully opaque (models conversion from the
alpha-free modes the scripts feed it). -/
def convertRGBA (im : Img) : Img :=
  if im.mode = "RGBA" then im
  else { mode := "RGBA", width := im.width, height := im.height,
         px := fun x y => { im.px x y with a := 255 } }

/-- `im.resize((w, h), LANCZOS)`: the output has exactly the requested
dimensions and the mode of `im`; pixels are produced from `im` by
coordinate sampling (the model of the high-quality filter). -/
def Img.resize (im : Img) (w h : ℕ) : Img :=
  { mode := im.mode, width := w, height := h,
    px := fun x y => im.px (x * im.width / w) (y * im.height / h) }

/-- Python 3 `round` on a real value: round half to even. -/
def roundHalfEven (q : ℚ) : ℤ :=
  if q - ⌊q⌋ < 1/2 then ⌊q⌋
  else if 1/2 < q - ⌊q⌋ then ⌊q⌋ + 1
  else if ⌊q⌋ % 2 = 0 then ⌊q⌋ else ⌊q⌋ + 1

lemma le_roundHalfEven (q : ℚ) : q - 1/2 ≤ (roundHalfEven q : ℚ) := by
  have h1 : (⌊q⌋ : ℚ) ≤ q := Int.floor_le q
  have h2 : q < ⌊q⌋ + 1 := Int.lt_floor_add_one q
  unfold roundHalfEven
  split_ifs with ha hb hc <;> push_cast <;> linarith

lemma roundHalfEven_le (q : ℚ) : (roundHalfEven q : ℚ) ≤ q + 1/2 := by
  have h1 : (⌊q⌋ : ℚ) ≤ q := Int.floor_le q
  have h2 : q < ⌊q⌋ + 1 := Int.lt_floor_add_one q
  unfold roundHalfEven
  split_ifs with ha hb hc <;> push_cast <;> linarith

lemma roundHalfEven_le_int {q : ℚ} {n : ℤ} (h : q ≤ (n : ℚ)) :
    roundHalfEven q ≤ n := by
  have h1 : (roundHalfEven q : ℚ) ≤ q + 1/2 := roundHalfEven_le q
  have h2 : (roundHalfEven q : ℚ) < (n : ℚ) + 1 := by linarith
  exact_mod_cast Int.lt_add_one_iff.mp (by exact_mod_cast h2)

lemma roundHalfEven_intCast (n : ℤ) : roundHalfEven (n : ℚ) = n := by
  unfold roundHalfEven
  rw [Int.floor_intCast]
  simp

lemma roundHalfEven_eq_of_lt {q : ℚ} {n : ℤ} (hn : ⌊q⌋ = n)
    (hr : q - (n : ℚ) < 1/2) : roundHalfEven q = n := by
  unfold roundHalfEven
  rw [hn, if_pos hr]

lemma roundHalfEven_eq_of_gt {q : ℚ} {n : ℤ} (hn : ⌊q⌋ = n)
    (hr : 1/2 < q - (n : ℚ)) : roundHalfEven q = n + 1 := by
  unfold roundHalfEven
  rw [hn, if_neg (by linarith), if_pos hr]

lemma roundHalfEven_eq_of_tie_even {q : ℚ} {n : ℤ} (hn : ⌊q⌋ = n)
    (hr : q - (n : ℚ) = 1/2) (he : n % 2 = 0) : roundHalfEven q = n := by
  unfold roundHalfEven
  rw [hn, if_neg (by linarith), if_neg (by linarith), if_pos he]

/-! ## The Padder (`scripts/fix_icon_padding.py`, `main`) -/

/-- Line 25, inner part: `max(0.0, min(45.0, args.margin_pct))`. -/
def clampMarginPct (margin_pct : ℚ) : ℚ := max 0 (min 45 margin_pct)

/-- Line 25: `margin = max(0.0, min(45.0, args.margin_pct)) / 100.0`. -/
def marginOf (margin_pct : ℚ) : ℚ := clampMarginPct margin_pct / 100

/-- Line 26: `inset = int(round(canvas_size * (1.0 - 2.0 * margin)))`. -/
def padInset (canvas_size : ℕ) (margin_pct : ℚ) : ℤ :=
  roundHalfEven ((canvas_size : ℚ) * (1 - 2 * marginOf margin_pct))

/-- Line 32: `scale = min(inset / im.width, inset / im.height)`. -/
def padScale (canvas_size : ℕ) (margin_pct : ℚ) (w h : ℕ) : ℚ :=
  min ((padInset canvas_size margin_pct : ℚ) / (w : ℚ))
      ((padInset canvas_size margin_pct : ℚ) / (h : ℚ))

/-- Line 33: `new_w = max(1, int(round(im.width * scale)))`. -/
def padNewW (canvas_size : ℕ) (margin_pct : ℚ) (w h : ℕ) : ℤ :=
  max 1 (roundHalfEven ((w : ℚ) * padScale canvas_size margin_pct w h))

/-- Line 34: `new_h = max(1, int(round(im.height * scale)))`. -/
def padNewH (canvas_size : ℕ) (margin_pct : ℚ) (w h : ℕ) : ℤ :=
  max 1 (roundHalfEven ((h : ℚ) * padScale canvas_size margin_pct w h))

/-- Line 38: `x = (canvas_size - new_w) // 2` (Python floor division). -/
def padX (canvas_size : ℕ) (margin_pct : ℚ) (w h : ℕ) : ℤ :=
  Int.fdiv ((canvas_size : ℤ) - padNewW canvas_size margin_pct w h) 2

/-- Line 39: `y = (canvas_size - new_h) // 2` (Python floor division). -/
def padY (canvas_size : ℕ) (margin_pct : ℚ) (w h : ℕ) : ℤ :=
  Int.fdiv ((canvas_size : ℤ) - padNewH canvas_size margin_pct w h) 2

/-- Per-pixel `over` operator of `PIL.Image.alpha_composite` on straight
(non-premultiplied) alpha, channel scale 0..255. -/
def RGBA.over (fg bg : RGBA) : RGBA :=
  if fg.a / 255 + bg.a / 255 * (1 - fg.a / 255) = 0 then ⟨0, 0, 0, 0⟩
  else
    ⟨(fg.r * (fg.a / 255) + bg.r * (bg.a / 255) * (1 - fg.a / 255)) /
        (fg.a / 255 + bg.a / 255 * (1 - fg.a / 255)),
     (fg.g * (fg.a / 255) + bg.g * (bg.a / 255) * (1 - fg.a / 255)) /
        (fg.a / 255 + bg.a / 255 * (1 - fg.a / 255)),
     (fg.b * (fg.a / 255) + bg.b * (bg.a / 255) * (1 - fg.a / 255)) /
        (fg.a / 255 + bg.a / 255 * (1 - fg.a / 255)),
     (fg.a / 255 + bg.a / 255 * (1 - fg.a / 255)) * 255⟩

/-- Line 40: `bg.alpha_composite(im_resized, dest=(x, y))`: alpha-aware
in-place composite of `fg` over the rectangle of `bg` whose top-left
corner is `(dx, dy)`; dimensions and mode of `bg` are unchanged. -/
def alphaComposite (bg fg : Img) (dx dy : ℤ) : Img :=
  { bg with px := fun ix iy =>
      if dx ≤ (ix : ℤ) ∧ (ix : ℤ) < dx + fg.width ∧ dy ≤ (iy : ℤ) ∧ (iy : ℤ) < dy + fg.height
      then RGBA.over (fg.px ((ix : ℤ) - dx).toNat ((iy : ℤ) - dy).toNat) (bg.px ix iy)
      else bg.px ix iy }

/-- Line 28: `Image.new("RGBA", (canvas_size, canvas_size), bg_color)`. -/
def mkCanvas (canvas_size : ℕ) (bg_color : RGBA) : Img :=
  ⟨"RGBA", canvas_size, canvas_size, fun _ _ => bg_color⟩

/-- The whole Padder pipeline (`main`, lines 24-40): clamp the margin,
compute the inset, decode and convert the input, fit-resize, center-paste
onto the background canvas.  The returned image is what line 43 saves. -/
def padder (canvas_size : ℕ) (margin_pct : ℚ) (bg_color : RGBA)
    (input : Img) : Img :=
  let im := convertRGBA input
  let bg := mkCanvas canvas_size bg_color
  let im_resized := im.resize
    (padNewW canvas_size margin_pct im.width im.height).toNat
    (padNewH canvas_size margin_pct im.width im.height).toNat
  alphaComposite bg im_resized
    (padX canvas_size margin_pct im.width im.height)
    (padY canvas_size margin_pct im.width im.height)

/-! ## The IconGenerator (`scripts/generate_app_icons.py`) -/

/-- Lines 14-26: the iPhone table of `IOS_ICON_SIZES` (insertion order). -/
def iphoneSizes : List (String × ℕ) :=
  [("Icon-20@1x.png", 20), ("Icon-20@2x.png", 40), ("Icon-20@3x.png", 60),
   ("Icon-29@1x.png", 29), ("Icon-29@2x.png", 58), ("Icon-29@3x.png", 87),
   ("Icon-40@1x.png", 40), ("Icon-40@2x.png", 80), ("Icon-40@3x.png", 120),
   ("Icon-60@2x.png", 120), ("Icon-60@3x.png", 180)]

/-- Lines 28-38: the iPad table of `IOS_ICON_SIZES`. -/
def ipadSizes : List (String × ℕ) :=
  [("Icon-20@1x.png", 20), ("Icon-20@2x.png", 40),
   ("Icon-29@1x.png", 29), ("Icon-29@2x.png", 58),
   ("Icon-40@1x.png", 40), ("Icon-40@2x.png", 80),
   ("Icon-76@1x.png", 76), ("Icon-76@2x.png", 152),
   ("Icon-83.5@2x.png", 167)]

/-- Lines 40-42: the App Store table of `IOS_ICON_SIZES`. -/
def appstoreSizes : List (String × ℕ) := [("AppIcon-1024.png", 1024)]

/-- Lines 12-43: `IOS_ICON_SIZES`, category → (filename → size), in the
dict insertion order the `for` loops iterate in. -/
def IOS_ICON_SIZES : List (String × List (String × ℕ)) :=
  [("iphone", iphoneSizes), ("ipad", ipadSizes), ("appstore", appstoreSizes)]

/-- Per-pixel `Image.paste(resized, (0, 0), resized)` onto a background
pixel, using the pasted pixel's own alpha as the mask; the result keeps the
background's (opaque) representation. -/
def pasteMaskPx (bg src : RGBA) : RGBA :=
  ⟨(bg.r * (255 - src.a) + src.r * src.a) / 255,
   (bg.g * (255 - src.a) + src.g * src.a) / 255,
   (bg.b * (255 - src.a) + src.b * src.a) / 255, 255⟩

/-- Lines 85-87: allocate `Image.new('RGB', (size, size), (255, 255, 255))`
and paste `im` onto it with `im` itself as the alpha mask. -/
def flattenWhite (im : Img) : Img :=
  { mode := "RGB", width := im.width, height := im.height,
    px := fun x y => pasteMaskPx ⟨255, 255, 255, 255⟩ (im.px x y) }

/-- Input state the script observes: whether the source path exists, and
the decoded image (`none` models a decode failure on line 54). -/
structure GenSource where
  pathExists : Bool
  decoded : Option Img

/-- The two `sys.exit(1)` failure modes of `generate_icons`. -/
inductive GenFailure where
  | sourceNotFound : GenFailure
  | openError : GenFailure
deriving DecidableEq

/-- The process exit status of a failure (both call `sys.exit(1)`). -/
def GenFailure.exitCode : GenFailure → ℕ
  | GenFailure.sourceNotFound => 1
  | GenFailure.openError => 1

/-- The diagnostic printed before exiting (lines 49 and 57). -/
def GenFailure.diagnostic : GenFailure → String
  | GenFailure.sourceNotFound => "Error: Source image not found!"
  | GenFailure.openError => "Error opening image"

/-- A file-system effect of `generate_icons`: `os.makedirs(output_dir)`
(line 65), `os.makedirs(category_dir)` (line 72), or a PNG save into
`<output_dir>/<category>/<filename>` (lines 88 and 90). -/
inductive FsAction where
  | mkdirRoot : FsAction
  | mkdirCat : String → FsAction
  | write : String → String → Img → FsAction

/-- Lines 70-93, one iteration of the outer `for`: create the category
directory, then resize the (already converted) source once per table entry
— always from `img` itself — flattening onto white for `appstore`. -/
def catActions (img : Img) (category : String) (sizes : List (String × ℕ)) :
    List FsAction :=
  FsAction.mkdirCat category ::
    sizes.map (fun fs =>
      FsAction.write category fs.1
        (if category = "appstore" then flattenWhite (img.resize fs.2 fs.2)
         else img.resize fs.2 fs.2))

/-- `generate_icons` (lines 45-102): validate the source path, decode,
convert to RGBA, then emit the directory-creation and file-write effects
in program order.  A failure exits before any effect is produced. -/
def generate_icons (src : GenSource) : Except GenFailure (List FsAction) :=
  if src.pathExists = false then Except.error GenFailure.sourceNotFound
  else
    match src.decoded with
    | none => Except.error GenFailure.openError
    | some img0 =>
      let img := convertRGBA img0
      Except.ok (FsAction.mkdirRoot ::
        List.foldr (fun cs acc => catActions img cs.1 cs.2 ++ acc) []
          IOS_ICON_SIZES)

/-- The `(category, filename, image)` triples `generate_icons` saves. -/
def genWrites (src : GenSource) : List (String × String × Img) :=
  match generate_icons src with
  | Except.error _ => []
  | Except.ok acts =>
    acts.filterMap (fun a =>
      match a with
      | FsAction.write c f i => some (c, f, i)
      | _ => none)

/-- The directory-creation effects `generate_icons` performs. -/
def genDirs (src : GenSource) : List FsAction :=
  match generate_icons src with
  | Except.error _ => []
  | Except.ok acts =>
    acts.filter (fun a =>
      match a with
      | FsAction.write _ _ _ => false
      | _ => true)

/-- The 21 writes `generate_icons` performs on a decoded source `img0`,
spelled out: every raster is resampled from `convertRGBA img0` itself, and
only the `appstore` raster is flattened onto white afterwards. -/
def expectedWrites (img0 : Img) : List (String × String × Img) :=
  (iphoneSizes.map (fun fs =>
      ("iphone", fs.1, (convertRGBA img0).resize fs.2 fs.2))) ++
  (ipadSizes.map (fun fs =>
      ("ipad", fs.1, (convertRGBA img0).resize fs.2 fs.2))) ++
  [("appstore", "AppIcon-1024.png",
      flattenWhite ((convertRGBA img0).resize 1024 1024))]

lemma genWrites_eq {src : GenSource} {img0 : Img}
    (h1 : src.pathExists = true) (h2 : src.decoded = some img0) :
    genWrites src = expectedWrites img0 := by
  unfold genWrites generate_icons
  rw [h1, h2]
  rfl

/-! ## Arithmetic facts about the Padder geometry -/

lemma clampMarginPct_nonneg (m : ℚ) : 0 ≤ clampMarginPct m :=
  le_max_left _ _

lemma clampMarginPct_le_45 (m : ℚ) : clampMarginPct m ≤ 45 :=
  max_le (by norm_num) (min_le_left _ _)

lemma marginOf_nonneg (m : ℚ) : 0 ≤ marginOf m := by
  have := clampMarginPct_nonneg m
  unfold marginOf
  positivity

lemma marginOf_le (m : ℚ) : marginOf m ≤ 9/20 := by
  have := clampMarginPct_le_45 m
  unfold marginOf
  linarith

lemma padInset_le_canvas (c : ℕ) (mp : ℚ) : padInset c mp ≤ (c : ℤ) := by
  unfold padInset
  apply roundHalfEven_le_int
  have hm := marginOf_nonneg mp
  have hc : (0:ℚ) ≤ (c : ℚ) := by positivity
  push_cast
  nlinarith

lemma padInset_nonneg (c : ℕ) (mp : ℚ) : 0 ≤ padInset c mp := by
  have hb := le_roundHalfEven ((c : ℚ) * (1 - 2 * marginOf mp))
  have hm := marginOf_le mp
  have hc : (0:ℚ) ≤ (c : ℚ) := by positivity
  have harg : (0:ℚ) ≤ (c : ℚ) * (1 - 2 * marginOf mp) := by nlinarith
  have h3 : (-1 : ℚ) < (padInset c mp : ℚ) := by
    unfold padInset
    linarith
  have h4 : (-1 : ℤ) < padInset c mp := by exact_mod_cast h3
  omega

lemma pad_w_scale_le_inset {w : ℕ} (c : ℕ) (mp : ℚ) (h : ℕ) (hw : 1 ≤ w) :
    (w : ℚ) * padScale c mp w h ≤ (padInset c mp : ℚ) := by
  have hw0 : (0:ℚ) < (w : ℚ) := by exact_mod_cast hw
  have h1 : padScale c mp w h ≤ (padInset c mp : ℚ) / (w : ℚ) :=
    min_le_left _ _
  calc (w : ℚ) * padScale c mp w h
      ≤ (w : ℚ) * ((padInset c mp : ℚ) / (w : ℚ)) := by
        exact mul_le_mul_of_nonneg_left h1 (le_of_lt hw0)
    _ = (padInset c mp : ℚ) := by field_simp

lemma pad_h_scale_le_inset {h : ℕ} (c : ℕ) (mp : ℚ) (w : ℕ) (hh : 1 ≤ h) :
    (h : ℚ) * padScale c mp w h ≤ (padInset c mp : ℚ) := by
  have hh0 : (0:ℚ) < (h : ℚ) := by exact_mod_cast hh
  have h1 : padScale c mp w h ≤ (padInset c mp : ℚ) / (h : ℚ) :=
    min_le_right _ _
  calc (h : ℚ) * padScale c mp w h
      ≤ (h : ℚ) * ((padInset c mp : ℚ) / (h : ℚ)) := by
        exact mul_le_mul_of_nonneg_left h1 (le_of_lt hh0)
    _ = (padInset c mp : ℚ) := by field_simp

lemma padNewW_le_inset {c w h : ℕ} {mp : ℚ} (hw : 1 ≤ w)
    (hi : 1 ≤ padInset c mp) : padNewW c mp w h ≤ padInset c mp :=
  max_le hi (roundHalfEven_le_int (pad_w_scale_le_inset c mp h hw))

lemma padNewH_le_inset {c w h : ℕ} {mp : ℚ} (hh : 1 ≤ h)
    (hi : 1 ≤ padInset c mp) : padNewH c mp w h ≤ padInset c mp :=
  max_le hi (roundHalfEven_le_int (pad_h_scale_le_inset c mp w hh))

lemma padNewW_le_canvas (c w h : ℕ) (mp : ℚ) (hc : 1 ≤ c) (hw : 1 ≤ w) :
    padNewW c mp w h ≤ (c : ℤ) := by
  apply max_le (by exact_mod_cast hc)
  apply roundHalfEven_le_int
  have h1 := pad_w_scale_le_inset c mp h hw
  have h2 : (padInset c mp : ℚ) ≤ ((c : ℤ) : ℚ) := by
    exact_mod_cast padInset_le_canvas c mp
  push_cast at h2 ⊢
  linarith

lemma padNewH_le_canvas (c w h : ℕ) (mp : ℚ) (hc : 1 ≤ c) (hh : 1 ≤ h) :
    padNewH c mp w h ≤ (c : ℤ) := by
  apply max_le (by exact_mod_cast hc)
  apply roundHalfEven_le_int
  have h1 := pad_h_scale_le_inset c mp w hh
  have h2 : (padInset c mp : ℚ) ≤ ((c : ℤ) : ℚ) := by
    exact_mod_cast padInset_le_canvas c mp
  push_cast at h2 ⊢
  linarith

lemma fdiv_two_bounds (d : ℤ) :
    0 ≤ d - 2 * Int.fdiv d 2 ∧ d - 2 * Int.fdiv d 2 ≤ 1 := by
  have h := Int.fdiv_add_fmod d 2
  have h1 := Int.fmod_nonneg' d (show (0:ℤ) < 2 by decide)
  have h2 := Int.fmod_lt_of_pos d (show (0:ℤ) < 2 by decide)
  omega

lemma marginOf_zero : marginOf 0 = 0 := by
  unfold marginOf clampMarginPct
  norm_num

lemma padInset_zero_margin (c : ℕ) : padInset c 0 = (c : ℤ) := by
  unfold padInset
  rw [marginOf_zero, show ((c:ℕ):ℚ) * (1 - 2 * 0) = ((c:ℤ):ℚ) by push_cast; ring,
    roundHalfEven_intCast]

/-- C1: for every canvas size and margin percentage, the Padder's output
image is exactly `canvas_size × canvas_size`, whatever the source is. -/
theorem padder_output_dims_eq_canvas (c : ℕ) (mp : ℚ) (col : RGBA)
    (img : Img) :
    (padder c mp col img).width = c ∧ (padder c mp col img).height = c :=
  ⟨rfl, rfl⟩

lemma padder_margin_congr {m1 m2 : ℚ}
    (hm : clampMarginPct m1 = clampMarginPct m2) (c : ℕ) (col : RGBA)
    (img : Img) : padder c m1 col img = padder c m2 col img := by
  unfold padder padX padY padNewW padNewH padScale padInset marginOf
  rw [hm]

/-- C7: margin clamping makes out-of-range margins behave exactly like the
nearest bound: the Padder's output at `margin_pct = 100` equals its output
at `45`, and its output at `-10` equals its output at `0`. -/
theorem padder_margin_clamp_equiv (c : ℕ) (col : RGBA) (img : Img) :
    padder c 100 col img = padder c 45 col img ∧
    padder c (-10) col img = padder c 0 col img := by
  constructor
  · exact padder_margin_congr (by unfold clampMarginPct; norm_num) c col img
  · exact padder_margin_congr (by unfold clampMarginPct; norm_num) c col img

/-- C10: for every canvas size at least 1 and source dimensions at least 1,
whatever the margin, the Padder's paste destination rectangle lies fully
inside the canvas, so the alpha-compositing step never targets a region
outside the allocated canvas. -/
theorem padder_paste_within_canvas (c w h : ℕ) (mp : ℚ) (hc : 1 ≤ c)
    (hw : 1 ≤ w) (hh : 1 ≤ h) :
    0 ≤ padX c mp w h ∧ 0 ≤ padY c mp w h ∧
    padX c mp w h + padNewW c mp w h ≤ (c : ℤ) ∧
    padY c mp w h + padNewH c mp w h ≤ (c : ℤ) := by
  have hWc := padNewW_le_canvas c w h mp hc hw
  have hHc := padNewH_le_canvas c w h mp hc hh
  have hX := fdiv_two_bounds ((c : ℤ) - padNewW c mp w h)
  have hY := fdiv_two_bounds ((c : ℤ) - padNewH c mp w h)
  have hxdef : padX c mp w h =
      Int.fdiv ((c : ℤ) - padNewW c mp w h) 2 := rfl
  have hydef : padY c mp w h =
      Int.fdiv ((c : ℤ) - padNewH c mp w h) 2 := rfl
  have hx0 : 0 ≤ padX c mp w h := by
    rw [hxdef]; exact Int.fdiv_nonneg (by omega) (by decide)
  have hy0 : 0 ≤ padY c mp w h := by
    rw [hydef]; exact Int.fdiv_nonneg (by omega) (by decide)
  refine ⟨hx0, hy0, by omega, by omega⟩

/-- C10 witness: the bounds at `canvas = 1024`, `margin_pct = 0`, source
`500 × 300`. -/
theorem padder_paste_within_canvas_witness :
    0 ≤ padX 1024 0 500 300 ∧ 0 ≤ padY 1024 0 500 300 ∧
    padX 1024 0 500 300 + padNewW 1024 0 500 300 ≤ (1024 : ℤ) ∧
    padY 1024 0 500 300 + padNewH 1024 0 500 300 ≤ (1024 : ℤ) :=
  padder_paste_within_canvas 1024 500 300 0 (by decide) (by decide)
    (by decide)

/-- C3 (amended): for every source with both dimensions at least 1 and any
margin percentage, whenever the computed inset is at least 1 — which holds
for every canvas size of at least 6 — the resampled image fits entirely
within `inset × inset`, its offsets are `x = (canvas - new_w) // 2` and
`y = (canvas - new_h) // 2`, and it is centered on the canvas within one
pixel on each axis.  (For canvas sizes up to 5 at margin 45% the inset
rounds to 0 while the resampled dimensions are floored at 1, so the
original "never exceeds inset" statement fails there.) -/
theorem padder_fit_within_inset_centered (c w h : ℕ) (mp : ℚ)
    (hw : 1 ≤ w) (hh : 1 ≤ h) (hi : 1 ≤ padInset c mp) :
    padNewW c mp w h ≤ padInset c mp ∧
    padNewH c mp w h ≤ padInset c mp ∧
    padX c mp w h = Int.fdiv ((c : ℤ) - padNewW c mp w h) 2 ∧
    padY c mp w h = Int.fdiv ((c : ℤ) - padNewH c mp w h) 2 ∧
    0 ≤ (c : ℤ) - padNewW c mp w h - 2 * padX c mp w h ∧
    (c : ℤ) - padNewW c mp w h - 2 * padX c mp w h ≤ 1 ∧
    0 ≤ (c : ℤ) - padNewH c mp w h - 2 * padY c mp w h ∧
    (c : ℤ) - padNewH c mp w h - 2 * padY c mp w h ≤ 1 := by
  refine ⟨padNewW_le_inset hw hi, padNewH_le_inset hh hi, rfl, rfl,
    ?_, ?_, ?_, ?_⟩
  · exact (fdiv_two_bounds ((c : ℤ) - padNewW c mp w h)).1
  · exact (fdiv_two_bounds ((c : ℤ) - padNewW c mp w h)).2
  · exact (fdiv_two_bounds ((c : ℤ) - padNewH c mp w h)).1
  · exact (fdiv_two_bounds ((c : ℤ) - padNewH c mp w h)).2

/-- C3 witness: the fit-and-center bounds at `canvas = 1024`,
`margin_pct = 0`, source `500 × 300`. -/
theorem padder_fit_within_inset_centered_witness :
    padNewW 1024 0 500 300 ≤ padInset 1024 0 ∧
    padNewH 1024 0 500 300 ≤ padInset 1024 0 ∧
    padX 1024 0 500 300 = Int.fdiv ((1024 : ℤ) - padNewW 1024 0 500 300) 2 ∧
    padY 1024 0 500 300 = Int.fdiv ((1024 : ℤ) - padNewH 1024 0 500 300) 2 ∧
    0 ≤ (1024 : ℤ) - padNewW 1024 0 500 300 - 2 * padX 1024 0 500 300 ∧
    (1024 : ℤ) - padNewW 1024 0 500 300 - 2 * padX 1024 0 500 300 ≤ 1 ∧
    0 ≤ (1024 : ℤ) - padNewH 1024 0 500 300 - 2 * padY 1024 0 500 300 ∧
    (1024 : ℤ) - padNewH 1024 0 500 300 - 2 * padY 1024 0 500 300 ≤ 1 :=
  padder_fit_within_inset_centered 1024 500 300 0 (by decide) (by decide)
    (by rw [padInset_zero_margin]; decide)

lemma padInset_one_45 : padInset 1 45 = 0 := by
  unfold padInset
  rw [show ((1:ℕ):ℚ) * (1 - 2 * marginOf 45) = 1/10 by
    unfold marginOf clampMarginPct; norm_num]
  exact roundHalfEven_eq_of_lt (by norm_num) (by norm_num)

/-- C3 counterexample: at `canvas = 1`, `margin_pct = 45`, source
`10 × 10`, the inset rounds to 0 while the resampled width is floored at
1, so the resampled image does not fit within `inset × inset`. -/
theorem padder_fit_claim_counterexample :
    padInset 1 45 = 0 ∧ padNewW 1 45 10 10 = 1 ∧
    ¬ padNewW 1 45 10 10 ≤ padInset 1 45 := by
  have hs : padScale 1 45 10 10 = 0 := by
    unfold padScale
    rw [padInset_one_45]
    norm_num
  have hw : padNewW 1 45 10 10 = 1 := by
    unfold padNewW
    rw [hs, show ((10:ℕ):ℚ) * 0 = ((0:ℤ):ℚ) by norm_num,
      roundHalfEven_intCast]
    decide
  exact ⟨padInset_one_45, hw, by rw [hw, padInset_one_45]; decide⟩

lemma marginOf_12_5 : marginOf (12.5 : ℚ) = 1/8 := by
  unfold marginOf clampMarginPct
  norm_num

lemma padInset_1024_12_5 : padInset 1024 (12.5 : ℚ) = 768 := by
  unfold padInset
  rw [marginOf_12_5,
    show ((1024:ℕ):ℚ) * (1 - 2 * (1/8)) = ((768:ℤ):ℚ) by norm_num,
    roundHalfEven_intCast]

lemma padScale_1024_12_5 : padScale 1024 (12.5 : ℚ) 500 300 = 1.536 := by
  unfold padScale
  rw [padInset_1024_12_5]
  rw [show (((768:ℤ)):ℚ) / ((500:ℕ):ℚ) = 192/125 by norm_num,
    show (((768:ℤ)):ℚ) / ((300:ℕ):ℚ) = 64/25 by norm_num,
    min_eq_left (by norm_num)]
  norm_num

lemma padNewW_1024_12_5 : padNewW 1024 (12.5 : ℚ) 500 300 = 768 := by
  unfold padNewW
  rw [padScale_1024_12_5,
    show ((500:ℕ):ℚ) * (1.536 : ℚ) = ((768:ℤ):ℚ) by norm_num,
    roundHalfEven_intCast]
  decide

lemma padNewH_1024_12_5 : padNewH 1024 (12.5 : ℚ) 500 300 = 461 := by
  unfold padNewH
  rw [padScale_1024_12_5,
    show ((300:ℕ):ℚ) * (1.536 : ℚ) = 2304/5 by norm_num,
    @roundHalfEven_eq_of_gt (2304/5) 460 (by norm_num) (by norm_num)]
  decide

/-- C4 (amended): for a 500×300 source with `--canvas 1024
--margin_pct 12.5` the Padder computes inset = 768 and scale = 768/500 =
1.536, and the resampled region pasted onto the canvas is 768×461 pixels
placed at x = 128, y = (1024-461)//2 = 281.  (round(300·1.536) =
round(460.8) = 461, not 460, so y is 281, not 282.) -/
theorem padder_scenario_500x300 :
    padInset 1024 (12.5 : ℚ) = 768 ∧
    padScale 1024 (12.5 : ℚ) 500 300 = 1.536 ∧
    padNewW 1024 (12.5 : ℚ) 500 300 = 768 ∧
    padNewH 1024 (12.5 : ℚ) 500 300 = 461 ∧
    padX 1024 (12.5 : ℚ) 500 300 = 128 ∧
    padY 1024 (12.5 : ℚ) 500 300 = 281 := by
  refine ⟨padInset_1024_12_5, padScale_1024_12_5, padNewW_1024_12_5,
    padNewH_1024_12_5, ?_, ?_⟩
  · unfold padX
    rw [padNewW_1024_12_5]
    decide
  · unfold padY
    rw [padNewH_1024_12_5]
    decide

/-- C4 counterexample: the claimed pasted region height 460 and vertical
offset 282 are not what the code computes for the 500×300 scenario — it
computes height 461 and offset 281. -/
theorem padder_scenario_claim_counterexample :
    padNewH 1024 (12.5 : ℚ) 500 300 ≠ 460 ∧
    padY 1024 (12.5 : ℚ) 500 300 ≠ 282 := by
  constructor
  · rw [padNewH_1024_12_5]
    decide
  · unfold padY
    rw [padNewH_1024_12_5]
    decide

/-- C8 (amended): for every canvas size and every margin percentage (the
code clamps the margin to at most 45), the computed inset satisfies
`inset ≥ canvas_size/10 - 1/2`; in particular it is at least 1 — never
zero — whenever `canvas_size ≥ 6`.  (For canvas sizes up to 5 at margin
45% the inset can round to 0, so the original "at least 10% of
canvas_size and never zero" fails there.) -/
theorem padder_inset_lower_bound (c : ℕ) (mp : ℚ) :
    (c : ℚ)/10 - 1/2 ≤ (padInset c mp : ℚ) ∧
    (6 ≤ c → 1 ≤ padInset c mp) := by
  have hm := marginOf_le mp
  have hm0 := marginOf_nonneg mp
  have hc : (0:ℚ) ≤ (c : ℚ) := by positivity
  have hb := le_roundHalfEven ((c : ℚ) * (1 - 2 * marginOf mp))
  have h1 : (c : ℚ)/10 - 1/2 ≤ (padInset c mp : ℚ) := by
    unfold padInset
    nlinarith
  refine ⟨h1, fun h6 => ?_⟩
  have hc6 : (6:ℚ) ≤ (c : ℚ) := by exact_mod_cast h6
  have h2 : (0:ℚ) < (padInset c mp : ℚ) := by linarith
  have h3 : (0:ℤ) < padInset c mp := by exact_mod_cast h2
  omega

/-- C8 witness: the inset lower bound at `canvas = 1024`, `margin_pct =
45`, with the canvas-size hypothesis of the second part discharged. -/
theorem padder_inset_lower_bound_witness :
    (1024 : ℚ)/10 - 1/2 ≤ (padInset 1024 45 : ℚ) ∧
    1 ≤ padInset 1024 45 :=
  ⟨(padder_inset_lower_bound 1024 45).1,
   (padder_inset_lower_bound 1024 45).2 (by decide)⟩

lemma padInset_five_45 : padInset 5 45 = 0 := by
  unfold padInset
  rw [show ((5:ℕ):ℚ) * (1 - 2 * marginOf 45) = 1/2 by
    unfold marginOf clampMarginPct; norm_num]
  exact roundHalfEven_eq_of_tie_even (by norm_num) (by norm_num)
    (by decide)

/-- C8 counterexample: at `canvas_size = 5` and `margin_pct = 45` the
computed inset is 0 — it is zero, and it is below 10% of the canvas
size. -/
theorem padder_inset_claim_counterexample :
    padInset 5 45 = 0 ∧ (padInset 5 45 : ℚ) < (5:ℚ)/10 := by
  refine ⟨padInset_five_45, ?_⟩
  rw [padInset_five_45]
  norm_num

/-! ## IconGenerator claims -/

lemma convertRGBA_mode (im : Img) : (convertRGBA im).mode = "RGBA" := by
  unfold convertRGBA
  split_ifs with hm
  · exact hm
  · rfl

/-- A 1×1 fully transparent RGBA source image used to instantiate the
IconGenerator theorems. -/
def demoImg : Img := ⟨"RGBA", 1, 1, fun _ _ => ⟨0, 0, 0, 0⟩⟩

/-- An existing, decodable source file holding `demoImg`. -/
def demoSrc : GenSource := ⟨true, some demoImg⟩

/-- A source path that does not exist. -/
def demoMissingSrc : GenSource := ⟨false, none⟩

/-- C2: for a valid source image the IconGenerator writes exactly the
files of the static size table — 21 files, 11 iphone + 9 ipad +
1 appstore — each with exactly the pixel dimensions declared for its
filename, and no two writes share a `(category, filename)` path. -/
theorem iconGenerator_writes_exact_size_table (src : GenSource)
    (img0 : Img) (h1 : src.pathExists = true)
    (h2 : src.decoded = some img0) :
    (genWrites src).map (fun t => (t.1, t.2.1, t.2.2.width, t.2.2.height)) =
      [("iphone", "Icon-20@1x.png", 20, 20),
       ("iphone", "Icon-20@2x.png", 40, 40),
       ("iphone", "Icon-20@3x.png", 60, 60),
       ("iphone", "Icon-29@1x.png", 29, 29),
       ("iphone", "Icon-29@2x.png", 58, 58),
       ("iphone", "Icon-29@3x.png", 87, 87),
       ("iphone", "Icon-40@1x.png", 40, 40),
       ("iphone", "Icon-40@2x.png", 80, 80),
       ("iphone", "Icon-40@3x.png", 120, 120),
       ("iphone", "Icon-60@2x.png", 120, 120),
       ("iphone", "Icon-60@3x.png", 180, 180),
       ("ipad", "Icon-20@1x.png", 20, 20),
       ("ipad", "Icon-20@2x.png", 40, 40),
       ("ipad", "Icon-29@1x.png", 29, 29),
       ("ipad", "Icon-29@2x.png", 58, 58),
       ("ipad", "Icon-40@1x.png", 40, 40),
       ("ipad", "Icon-40@2x.png", 80, 80),
       ("ipad", "Icon-76@1x.png", 76, 76),
       ("ipad", "Icon-76@2x.png", 152, 152),
       ("ipad", "Icon-83.5@2x.png", 167, 167),
       ("appstore", "AppIcon-1024.png", 1024, 1024)] ∧
    ((genWrites src).map (fun t => (t.1, t.2.1))).Nodup := by
  rw [genWrites_eq h1 h2]
  constructor
  · rfl
  · rw [show (expectedWrites img0).map (fun t => (t.1, t.2.1)) =
        [("iphone", "Icon-20@1x.png"), ("iphone", "Icon-20@2x.png"),
         ("iphone", "Icon-20@3x.png"), ("iphone", "Icon-29@1x.png"),
         ("iphone", "Icon-29@2x.png"), ("iphone", "Icon-29@3x.png"),
         ("iphone", "Icon-40@1x.png"), ("iphone", "Icon-40@2x.png"),
         ("iphone", "Icon-40@3x.png"), ("iphone", "Icon-60@2x.png"),
         ("iphone", "Icon-60@3x.png"), ("ipad", "Icon-20@1x.png"),
         ("ipad", "Icon-20@2x.png"), ("ipad", "Icon-29@1x.png"),
         ("ipad", "Icon-29@2x.png"), ("ipad", "Icon-40@1x.png"),
         ("ipad", "Icon-40@2x.png"), ("ipad", "Icon-76@1x.png"),
         ("ipad", "Icon-76@2x.png"), ("ipad", "Icon-83.5@2x.png"),
         ("appstore", "AppIcon-1024.png")] from rfl]
    decide

/-- C2 witness: the size-table write list at the concrete demo source. -/
theorem iconGenerator_writes_exact_size_table_witness :
    (genWrites demoSrc).map
        (fun t => (t.1, t.2.1, t.2.2.width, t.2.2.height)) =
      [("iphone", "Icon-20@1x.png", 20, 20),
       ("iphone", "Icon-20@2x.png", 40, 40),
       ("iphone", "Icon-20@3x.png", 60, 60),
       ("iphone", "Icon-29@1x.png", 29, 29),
       ("iphone", "Icon-29@2x.png", 58, 58),
       ("iphone", "Icon-29@3x.png", 87, 87),
       ("iphone", "Icon-40@1x.png", 40, 40),
       ("iphone", "Icon-40@2x.png", 80, 80),
       ("iphone", "Icon-40@3x.png", 120, 120),
       ("iphone", "Icon-60@2x.png", 120, 120),
       ("iphone", "Icon-60@3x.png", 180, 180),
       ("ipad", "Icon-20@1x.png", 20, 20),
       ("ipad", "Icon-20@2x.png", 40, 40),
       ("ipad", "Icon-29@1x.png", 29, 29),
       ("ipad", "Icon-29@2x.png", 58, 58),
       ("ipad", "Icon-40@1x.png", 40, 40),
       ("ipad", "Icon-40@2x.png", 80, 80),
       ("ipad", "Icon-76@1x.png", 76, 76),
       ("ipad", "Icon-76@2x.png", 152, 152),
       ("ipad", "Icon-83.5@2x.png", 167, 167),
       ("appstore", "AppIcon-1024.png", 1024, 1024)] ∧
    ((genWrites demoSrc).map (fun t => (t.1, t.2.1))).Nodup :=
  iconGenerator_writes_exact_size_table demoSrc demoImg rfl rfl

/-- C6: invoking the IconGenerator on a source path that does not exist
terminates with exit status 1 (non-zero) and a diagnostic, and performs no
file-system effect: no directory is created and no file is written. -/
theorem iconGenerator_missing_source_no_output (src : GenSource)
    (h : src.pathExists = false) :
    generate_icons src = Except.error GenFailure.sourceNotFound ∧
    GenFailure.exitCode GenFailure.sourceNotFound = 1 ∧
    GenFailure.diagnostic GenFailure.sourceNotFound ≠ "" ∧
    genWrites src = [] ∧ genDirs src = [] := by
  have hg : generate_icons src = Except.error GenFailure.sourceNotFound := by
    unfold generate_icons
    rw [h]
    rfl
  refine ⟨hg, rfl, by decide, ?_, ?_⟩
  · unfold genWrites
    rw [hg]
  · unfold genDirs
    rw [hg]

/-- C6 witness: the missing-source outcome at the concrete absent path. -/
theorem iconGenerator_missing_source_no_output_witness :
    generate_icons demoMissingSrc = Except.error GenFailure.sourceNotFound ∧
    GenFailure.exitCode GenFailure.sourceNotFound = 1 ∧
    GenFailure.diagnostic GenFailure.sourceNotFound ≠ "" ∧
    genWrites demoMissingSrc = [] ∧ genDirs demoMissingSrc = [] :=
  iconGenerator_missing_source_no_output demoMissingSrc rfl

lemma appstore_write_mem {src : GenSource} {img0 : Img}
    (h1 : src.pathExists = true) (h2 : src.decoded = some img0) :
    ("appstore", "AppIcon-1024.png",
      flattenWhite ((convertRGBA img0).resize 1024 1024)) ∈
      genWrites src := by
  rw [genWrites_eq h1 h2]
  unfold expectedWrites
  exact List.mem_append_right _ (List.mem_singleton_self _)

/-- C9 (amended): every raster the IconGenerator writes is resampled
directly from the original decoded source image — the iphone and ipad
files are exactly `resize(source, size × size)` and the appstore file is
exactly the white-flatten of `resize(source, 1024 × 1024)` — never a
resize chained from a previously resized intermediate. -/
theorem iconGenerator_writes_resampled_from_original (src : GenSource)
    (img0 : Img) (h1 : src.pathExists = true)
    (h2 : src.decoded = some img0) :
    genWrites src = expectedWrites img0 :=
  genWrites_eq h1 h2

/-- C9 witness: the resample origin of every write at the demo source. -/
theorem iconGenerator_writes_resampled_from_original_witness :
    genWrites demoSrc = expectedWrites demoImg :=
  iconGenerator_writes_resampled_from_original demoSrc demoImg rfl rfl

/-- C9 counterexample: the appstore write is flattened after resampling,
so the written raster is not equal to `resize(source, 1024 × 1024)` — the
claim "each written file equals resize(source, size × size)" fails on the
appstore file. -/
theorem iconGenerator_resample_claim_counterexample :
    ("appstore", "AppIcon-1024.png",
      flattenWhite ((convertRGBA demoImg).resize 1024 1024)) ∈
      genWrites demoSrc ∧
    flattenWhite ((convertRGBA demoImg).resize 1024 1024) ≠
      (convertRGBA demoImg).resize 1024 1024 := by
  refine ⟨appstore_write_mem rfl rfl, fun hEq => ?_⟩
  have hm := congrArg Img.mode hEq
  simp [flattenWhite, Img.resize, convertRGBA, demoImg] at hm

lemma pasteMaskPx_white_transparent (s : RGBA) (h : s.a = 0) :
    pasteMaskPx ⟨255, 255, 255, 255⟩ s = ⟨255, 255, 255, 255⟩ := by
  unfold pasteMaskPx
  rw [h]
  congr 1 <;> norm_num

lemma pasteMaskPx_white_r_bounds (s : RGBA) (ha0 : 0 ≤ s.a)
    (ha1 : s.a ≤ 255) (hr : s.r ≤ 255) :
    s.r ≤ (pasteMaskPx ⟨255, 255, 255, 255⟩ s).r ∧
    (pasteMaskPx ⟨255, 255, 255, 255⟩ s).r ≤ 255 := by
  unfold pasteMaskPx
  constructor
  · rw [le_div_iff₀ (by norm_num : (0:ℚ) < 255)]
    show s.r * 255 ≤ 255 * (255 - s.a) + s.r * s.a
    nlinarith
  · rw [div_le_iff₀ (by norm_num : (0:ℚ) < 255)]
    show 255 * (255 - s.a) + s.r * s.a ≤ 255 * 255
    nlinarith

lemma pasteMaskPx_white_g_bounds (s : RGBA) (ha0 : 0 ≤ s.a)
    (ha1 : s.a ≤ 255) (hg : s.g ≤ 255) :
    s.g ≤ (pasteMaskPx ⟨255, 255, 255, 255⟩ s).g ∧
    (pasteMaskPx ⟨255, 255, 255, 255⟩ s).g ≤ 255 := by
  unfold pasteMaskPx
  constructor
  · rw [le_div_iff₀ (by norm_num : (0:ℚ) < 255)]
    show s.g * 255 ≤ 255 * (255 - s.a) + s.g * s.a
    nlinarith
  · rw [div_le_iff₀ (by norm_num : (0:ℚ) < 255)]
    show 255 * (255 - s.a) + s.g * s.a ≤ 255 * 255
    nlinarith

lemma pasteMaskPx_white_b_bounds (s : RGBA) (ha0 : 0 ≤ s.a)
    (ha1 : s.a ≤ 255) (hb : s.b ≤ 255) :
    s.b ≤ (pasteMaskPx ⟨255, 255, 255, 255⟩ s).b ∧
    (pasteMaskPx ⟨255, 255, 255, 255⟩ s).b ≤ 255 := by
  unfold pasteMaskPx
  constructor
  · rw [le_div_iff₀ (by norm_num : (0:ℚ) < 255)]
    show s.b * 255 ≤ 255 * (255 - s.a) + s.b * s.a
    nlinarith
  · rw [div_le_iff₀ (by norm_num : (0:ℚ) < 255)]
    show 255 * (255 - s.a) + s.b * s.a ≤ 255 * 255
    nlinarith

/-- C5: in a successful run, the appstore write is an opaque 3-channel RGB
raster — the white-flatten of the resampled source, with every pixel's
alpha forced to full opacity, fully transparent resampled pixels becoming
pure white and partially transparent ones blending toward white — while
every write of any other category keeps the 4-channel RGBA
representation. -/
theorem iconGenerator_appstore_opaque_others_rgba (src : GenSource)
    (img0 : Img) (h1 : src.pathExists = true)
    (h2 : src.decoded = some img0) (cat fn : String) (img : Img)
    (hmem : (cat, fn, img) ∈ genWrites src) :
    (cat = "appstore" →
      img.mode = "RGB" ∧
      img = flattenWhite ((convertRGBA img0).resize 1024 1024) ∧
      (∀ x y, (img.px x y).a = 255) ∧
      (∀ x y, (((convertRGBA img0).resize 1024 1024).px x y).a = 0 →
        img.px x y = ⟨255, 255, 255, 255⟩) ∧
      (∀ x y, 0 ≤ (((convertRGBA img0).resize 1024 1024).px x y).a →
        (((convertRGBA img0).resize 1024 1024).px x y).a ≤ 255 →
        ((((convertRGBA img0).resize 1024 1024).px x y).r ≤ 255 →
          (((convertRGBA img0).resize 1024 1024).px x y).r ≤
            (img.px x y).r ∧ (img.px x y).r ≤ 255) ∧
        ((((convertRGBA img0).resize 1024 1024).px x y).g ≤ 255 →
          (((convertRGBA img0).resize 1024 1024).px x y).g ≤
            (img.px x y).g ∧ (img.px x y).g ≤ 255) ∧
        ((((convertRGBA img0).resize 1024 1024).px x y).b ≤ 255 →
          (((convertRGBA img0).resize 1024 1024).px x y).b ≤
            (img.px x y).b ∧ (img.px x y).b ≤ 255))) ∧
    (cat ≠ "appstore" → img.mode = "RGBA") := by
  rw [genWrites_eq h1 h2] at hmem
  unfold expectedWrites at hmem
  rcases List.mem_append.mp hmem with hA | hApp
  · rcases List.mem_append.mp hA with hIph | hIpad
    · obtain ⟨fs, _, heq⟩ := List.mem_map.mp hIph
      simp only [Prod.mk.injEq] at heq
      obtain ⟨hcat, _, himg⟩ := heq
      constructor
      · intro hcat2
        rw [← hcat] at hcat2
        exact absurd hcat2 (by decide)
      · intro _
        rw [← himg, Img.resize, convertRGBA_mode]
    · obtain ⟨fs, _, heq⟩ := List.mem_map.mp hIpad
      simp only [Prod.mk.injEq] at heq
      obtain ⟨hcat, _, himg⟩ := heq
      constructor
      · intro hcat2
        rw [← hcat] at hcat2
        exact absurd hcat2 (by decide)
      · intro _
        rw [← himg, Img.resize, convertRGBA_mode]
  · have heq := List.mem_singleton.mp hApp
    simp only [Prod.mk.injEq] at heq
    obtain ⟨hcat, _, himg⟩ := heq
    constructor
    · intro _
      refine ⟨by rw [himg]; rfl, himg, ?_, ?_, ?_⟩
      · intro x y
        rw [himg]
        rfl
      · intro x y hs0
        rw [himg]
        exact pasteMaskPx_white_transparent _ hs0
      · intro x y ha0 ha1
        rw [himg]
        exact ⟨fun hr => pasteMaskPx_white_r_bounds _ ha0 ha1 hr,
               fun hg => pasteMaskPx_white_g_bounds _ ha0 ha1 hg,
               fun hb => pasteMaskPx_white_b_bounds _ ha0 ha1 hb⟩
    · intro hne
      exact absurd hcat hne

/-- C5 witness: on the 1×1 fully transparent demo source, the appstore
write is RGB and its pixel (0,0) is opaque pure white. -/
theorem iconGenerator_appstore_opaque_others_rgba_witness :
    (flattenWhite ((convertRGBA demoImg).resize 1024 1024)).mode = "RGB" ∧
    (flattenWhite ((convertRGBA demoImg).resize 1024 1024)).px 0 0 =
      ⟨255, 255, 255, 255⟩ := by
  have h := iconGenerator_appstore_opaque_others_rgba demoSrc demoImg rfl
    rfl "appstore" "AppIcon-1024.png"
    (flattenWhite ((convertRGBA demoImg).resize 1024 1024))
    (appstore_write_mem rfl rfl)
  have h2 := h.1 rfl
  exact ⟨h2.1, h2.2.2.2.1 0 0 rfl⟩
